import Mathlib

/-!
Shallow embedding of the skydns client library (package client, client.go).

External collaborators (the Go standard library HTTP stack, the JSON codec
and the DNS transport) are modelled as explicit oracle inputs: each client
operation receives the outcome of request construction and of the network
round trip as parameters, and the embedding reproduces exactly the control
flow the Go source performs on those outcomes.  Go string slicing and the
helpers net.SplitHostPort, net.JoinHostPort and dns.Fqdn are translated
directly from their sources.  A Go runtime panic is modelled by an explicit
constructor, since a panicking call never returns a value to its caller.
All strings involved are ASCII, so the character-level model coincides with
the byte-level semantics of Go.
-/

namespace Skydns

/-- Result of running a Go function: either it returns a value, or it
panics at runtime (nil dereference, slice out of range) and never returns. -/
inductive GoResult (α : Type) where
  | panics (msg : String)
  | ok (val : α)
deriving DecidableEq, Repr

/-- The error values the client can hand to its caller: the four sentinel
errors declared at the top of client.go, plus `other` for any error value
propagated from an external collaborator (transport, codec, URL parsing). -/
inductive GoError where
  | noHttpAddress
  | invalidResponse
  | serviceNotFound
  | conflictingUUID
  | other (msg : String)
deriving DecidableEq, Repr

/-- First index at which the predicate holds, scanning left to right. -/
def findIdxAux (p : Char → Bool) : List Char → Nat → Option Nat
  | [], _ => none
  | c :: cs, i => if p c then some i else findIdxAux p cs (i + 1)

/-- Last index at which the predicate holds. -/
def lastIdxAux (p : Char → Bool) : List Char → Nat → Option Nat → Option Nat
  | [], _, acc => acc
  | c :: cs, i, acc => lastIdxAux p cs (i + 1) (if p c then some i else acc)

/-- Index of the first occurrence of a character, Go byteIndex. -/
def indexOfChar (l : List Char) (c : Char) : Option Nat :=
  findIdxAux (fun x => x = c) l 0

/-- Index of the last occurrence of a character, Go last. -/
def lastIndexOfChar (l : List Char) (c : Char) : Option Nat :=
  lastIdxAux (fun x => x = c) l 0 none

/-- Go net.SplitHostPort: splits a network address of the form host:port or
[host]:port into host and port.  The port starts after the last colon; a
bracketed host must have the closing bracket directly before that colon;
stray brackets or extra colons in a bare host are errors.  Error messages
are identifiers only, the claims never inspect them. -/
def goSplitHostPort (hostPort : String) : Except String (String × String) :=
  let l := hostPort.data
  match lastIndexOfChar l ':' with
  | none => .error "missing port in address"
  | some i =>
    match l.head? with
    | some '[' =>
      match indexOfChar l ']' with
      | none => .error "missing right bracket in address"
      | some e =>
        if e + 1 = l.length then .error "missing port in address"
        else if e + 1 = i then
          if (l.drop 1).any (fun x => x = '[') then .error "missing brackets in address"
          else if (l.drop (e + 1)).any (fun x => x = ']') then
            .error "unexpected right bracket in address"
          else .ok (⟨(l.drop 1).take (e - 1)⟩, ⟨l.drop (i + 1)⟩)
        else
          match l.get? (e + 1) with
          | some ':' => .error "too many colons in address"
          | _ => .error "missing port in address"
    | _ =>
      let host := l.take i
      if host.any (fun x => x = ':') then .error "too many colons in address"
      else if l.any (fun x => x = '[') then .error "missing brackets in address"
      else if l.any (fun x => x = ']') then .error "unexpected right bracket in address"
      else .ok (⟨host⟩, ⟨l.drop (i + 1)⟩)

/-- Go net.JoinHostPort: brackets the host when it contains a colon. -/
def goJoinHostPort (host port : String) : String :=
  if host.data.any (fun x => x = ':') then "[" ++ host ++ "]:" ++ port
  else host ++ ":" ++ port

/-- dns.Fqdn from the DNS library: returns s unchanged when it already ends
in a dot, otherwise appends one; the empty name maps to the root dot. -/
def dnsFqdn (s : String) : String :=
  match s.data.getLast? with
  | none => "."
  | some c => if c = '.' then s else s ++ "."

/-- Go string slicing s[n:] on the character level.  The caller is
responsible for the bounds check: Go panics when n exceeds len(s), and the
one call site models that panic explicitly. -/
def goSliceFrom (s : String) (n : Nat) : String :=
  ⟨s.data.drop n⟩

/-- The Client handle of client.go, minus the two transport objects it
allocates (an http.Client and a dns.Client, both opaque stateless handles
modelled by the oracle parameters of each operation). -/
structure Client where
  base : String
  secret : String
  basedns : String
  domain : String
deriving DecidableEq, Repr

/-- The host extracted by NewClient: net.SplitHostPort applied to base[6:],
with the error discarded, so that on a parse failure the host keeps the Go
zero value, the empty string. -/
def deriveHost (base : String) : String :=
  match goSplitHostPort (goSliceFrom base 6) with
  | .ok hp => hp.1
  | .error _ => ""

/-- NewClient from client.go.  An empty base yields ErrNoHttpAddress; a
zero dnsport defaults to 53; base[6:] panics when the base is shorter than
6 characters; the SplitHostPort error is silently discarded; the handle
stores JoinHostPort of the extracted host with the port, and the domain
suffix dot-prefix of the fully qualified domain. -/
def newClient (base secret dnsdomain : String) (dnsport : Nat) :
    GoResult (Except GoError Client) :=
  if base = "" then .ok (.error .noHttpAddress)
  else
    let port := if dnsport = 0 then 53 else dnsport
    if base.length < 6 then .panics "slice bounds out of range"
    else .ok (.ok {
      base := base
      secret := secret
      basedns := goJoinHostPort (deriveHost base) (toString port)
      domain := "." ++ dnsFqdn dnsdomain })

/-- An HTTP request as far as the client manipulates it: method, URL and
header list. -/
structure HttpRequest where
  method : String
  url : String
  headers : List (String × String)
deriving DecidableEq, Repr

/-- req.Header.Add. -/
def addHeader (r : HttpRequest) (k v : String) : HttpRequest :=
  { r with headers := r.headers ++ [(k, v)] }

/-- Client.newRequest from client.go.  The oracle nr is the outcome of
http.NewRequest on the given method, URL and body: on failure Go returns a
nil request together with the error.  The source adds the Authorization
header before inspecting the error, so when a secret is configured and
construction failed, req.Header.Add dereferences the nil request and the
call panics instead of returning. -/
def clientNewRequest (c : Client) (nr : Except String HttpRequest) :
    GoResult (Except String HttpRequest) :=
  match nr with
  | .ok req =>
    .ok (.ok (if c.secret ≠ "" then addHeader req "Authorization" c.secret else req))
  | .error e =>
    if c.secret ≠ "" then
      .panics "invalid memory address or nil pointer dereference"
    else .ok (.error e)

/-- The service record: opaque to the client, owned by the external message
schema; the client only encodes and decodes it. -/
structure Service where
  name : String
  host : String
  port : Nat
  ttl : Nat
deriving DecidableEq, Repr

/-- The callback record, opaque like the service record. -/
structure Callback where
  uuid : String
  reply : String
deriving DecidableEq, Repr

/-- Outcome of the HTTP round trip c.h.Do for one request: a transport
error, or a response carrying a status code together with what a JSON
decode of its body into the operation's target type would yield. -/
inductive DoOutcome (α : Type) where
  | err (e : String)
  | resp (status : Nat) (body : Except String α)
deriving Repr

/-- Client.joinUrl: fmt.Sprintf of base, the services path and the uuid. -/
def joinUrl (c : Client) (uuid : String) : String :=
  c.base ++ "/skydns/services/" ++ uuid

/-- Client.Add: encode the record, build an authenticated PUT to the
services path, dispatch it, and map the status: 201 Created is success,
409 Conflict is ErrConflictingUUID, anything else ErrInvalidResponse.
enc is the outcome of the JSON encode, mkReq the http.NewRequest oracle
and send the round-trip oracle; the body of the response is never read. -/
def clientAdd (c : Client) (uuid : String) (enc : Except String Unit)
    (mkReq : String → String → Except String HttpRequest)
    (send : HttpRequest → DoOutcome Unit) : GoResult (Option GoError) :=
  match enc with
  | .error e => .ok (some (.other e))
  | .ok _ =>
    match clientNewRequest c (mkReq "PUT" (joinUrl c uuid)) with
    | .panics m => .panics m
    | .ok (.error e) => .ok (some (.other e))
    | .ok (.ok req) =>
      match send req with
      | .err e => .ok (some (.other e))
      | .resp status _ =>
        if status = 201 then .ok none
        else if status = 409 then .ok (some .conflictingUUID)
        else .ok (some .invalidResponse)

/-- Client.Delete: build an authenticated DELETE and dispatch it; any
response, whatever its status code, is reported as success. -/
def clientDelete (c : Client) (uuid : String)
    (mkReq : String → String → Except String HttpRequest)
    (send : HttpRequest → DoOutcome Unit) : GoResult (Option GoError) :=
  match clientNewRequest c (mkReq "DELETE" (joinUrl c uuid)) with
  | .panics m => .panics m
  | .ok (.error e) => .ok (some (.other e))
  | .ok (.ok req) =>
    match send req with
    | .err e => .ok (some (.other e))
    | .resp _ _ => .ok none

/-- Client.Get: build an authenticated GET, dispatch it, and map the
status: 200 decodes the body into the record (a nil pointer when the body
is the JSON null, hence the Option), 404 is ErrServiceNotFound, anything
else ErrInvalidResponse; a decode failure propagates as its own error. -/
def clientGet (c : Client) (uuid : String)
    (mkReq : String → String → Except String HttpRequest)
    (send : HttpRequest → DoOutcome (Option Service)) :
    GoResult (Except GoError (Option Service)) :=
  match clientNewRequest c (mkReq "GET" (joinUrl c uuid)) with
  | .panics m => .panics m
  | .ok (.error e) => .ok (.error (.other e))
  | .ok (.ok req) =>
    match send req with
    | .err e => .ok (.error (.other e))
    | .resp status body =>
      if status = 200 then
        match body with
        | .error e => .ok (.error (.other e))
        | .ok s => .ok (.ok s)
      else if status = 404 then .ok (.error .serviceNotFound)
      else .ok (.error .invalidResponse)

/-- The PATCH body Client.Update formats: a JSON object holding only the
TTL field.  Formatting a number cannot fail. -/
def updateBody (ttl : Nat) : String :=
  "\x7b\"TTL\":" ++ toString ttl ++ "\x7d"

/-- Client.Update: build an authenticated PATCH carrying the TTL body and
dispatch it; like Delete, any response is reported as success. -/
def clientUpdate (c : Client) (uuid : String) (ttl : Nat)
    (mkReq : String → String → Except String HttpRequest)
    (send : HttpRequest → DoOutcome Unit) : GoResult (Option GoError) :=
  let _body := updateBody ttl
  match clientNewRequest c (mkReq "PATCH" (joinUrl c uuid)) with
  | .panics m => .panics m
  | .ok (.error e) => .ok (some (.other e))
  | .ok (.ok req) =>
    match send req with
    | .err e => .ok (some (.other e))
    | .resp _ _ => .ok none

/-- Client.AddCallback: encode the callback, build an authenticated PUT to
the callbacks path, dispatch it, and map the status: 201 Created is
success, 404 NotFound is ErrServiceNotFound, anything else
ErrInvalidResponse. -/
def clientAddCallback (c : Client) (uuid : String) (enc : Except String Unit)
    (mkReq : String → String → Except String HttpRequest)
    (send : HttpRequest → DoOutcome Unit) : GoResult (Option GoError) :=
  match enc with
  | .error e => .ok (some (.other e))
  | .ok _ =>
    match clientNewRequest c (mkReq "PUT" (c.base ++ "/skydns/callbacks/" ++ uuid)) with
    | .panics m => .panics m
    | .ok (.error e) => .ok (some (.other e))
    | .ok (.ok req) =>
      match send req with
      | .err e => .ok (some (.other e))
      | .resp status _ =>
        if status = 201 then .ok none
        else if status = 404 then .ok (some .serviceNotFound)
        else .ok (some .invalidResponse)

/-- NameCount: a name to count mapping, modelled as an association list;
the Go zero value of the map type is the empty mapping. -/
def NameCount := List (String × Nat)

/-- A DNS message as far as the client builds one: the recursion desired
flag and the question section of (name, type, class) triples. -/
structure DnsMsg where
  recursionDesired : Bool
  question : List (String × Nat × Nat)
deriving DecidableEq, Repr

/-- dns.TypeSRV. -/
def typeSRV : Nat := 33

/-- Msg.SetQuestion from the DNS library: sets recursion desired and a
single-entry question section with class INET. -/
def setQuestion (m : DnsMsg) (z : String) (t : Nat) : DnsMsg :=
  { m with recursionDesired := true, question := [(z, t, 1)] }

/-- Client.newRequestDNS: builds a fresh query message for the name and
type; the error it returns is always nil. -/
def newRequestDNS (qname : String) (qtype : Nat) : Except String DnsMsg :=
  .ok (setQuestion { recursionDesired := false, question := [] } qname qtype)

/-- Client.GetRegionsDNS: build a SRV query for the fixed name regions and
exchange it with the derived DNS server address.  The exchange outcome is
the oracle exch.  On success the received response is bound and then
discarded (the source line resp = resp), and the zero-value mapping is
returned with a nil error. -/
def clientGetRegionsDNS (c : Client)
    (exch : DnsMsg → String → Except String DnsMsg) :
    Except GoError NameCount :=
  match newRequestDNS "regions" typeSRV with
  | .error e => .error (.other e)
  | .ok req =>
    match exch req c.basedns with
    | .error e => .error (.other e)
    | .ok _resp => .ok ([] : List (String × Nat))

end Skydns
namespace Skydns

/-- Claim C1: the spec scenario says NewClient("http://10.0.0.1:8080", _,
"skydns.local", 0) derives the DNS address "10.0.0.1:53".  Evaluating the
code at that input: base[6:] removes only the six characters of "http:/",
so SplitHostPort sees "/10.0.0.1:8080" and the handle stores
"/10.0.0.1:53", not the address the spec states; the domain suffix part of
the scenario does hold. -/
theorem newClient_scheme_slice_eval :
    newClient "http://10.0.0.1:8080" "" "skydns.local" 0 =
      .ok (.ok { base := "http://10.0.0.1:8080", secret := "",
                 basedns := "/10.0.0.1:53", domain := ".skydns.local." })
    ∧ ("/10.0.0.1:53" : String) ≠ "10.0.0.1:53" :=
  ⟨rfl, by decide⟩

/-- Claim C2: NewClient returns ErrNoHttpAddress exactly when the base is
empty, and whenever construction with dnsport 0 yields a handle, its DNS
address pairs some host with the default port 53. -/
theorem newClient_noAddress_exact (base secret dnsdomain : String) (dnsport : Nat) :
    ((newClient base secret dnsdomain dnsport = .ok (.error .noHttpAddress)) ↔ base = "")
    ∧ (∀ c, newClient base secret dnsdomain 0 = .ok (.ok c) →
        ∃ h, c.basedns = goJoinHostPort h "53") := by
  constructor
  · constructor
    · intro h
      by_contra hb
      simp only [newClient, if_neg hb] at h
      split_ifs at h <;> simp_all
    · intro hb
      subst hb
      simp [newClient]
  · intro c h
    by_cases hb : base = ""
    · subst hb
      simp [newClient] at h
    · simp only [newClient, if_neg hb] at h
      by_cases hl : base.length < 6
      · rw [if_pos hl] at h
        exact absurd h (by simp)
      · rw [if_neg hl] at h
        simp only [GoResult.ok.injEq, Except.ok.injEq] at h
        subst h
        exact ⟨deriveHost base, rfl⟩

/-- Witness for C2 at base "http:/", domain "d", port 0: construction
yields the handle with DNS address ":53" = JoinHostPort "" "53". -/
theorem newClient_noAddress_exact_witness :
    ∃ h, (Client.mk "http:/" "" ":53" ".d.").basedns = goJoinHostPort h "53" :=
  (newClient_noAddress_exact "http:/" "" "d" 0).2
    (Client.mk "http:/" "" ":53" ".d.") rfl

/-- Claim C3: once the Add round trip completes, the outcome depends only
on the status code: 201 is success, 409 is ErrConflictingUUID, everything
else ErrInvalidResponse. -/
theorem clientAdd_status_mapping (c : Client) (uuid : String)
    (mkReq : String → String → Except String HttpRequest)
    (send : HttpRequest → DoOutcome Unit) (req : HttpRequest) (status : Nat)
    (body : Except String Unit)
    (hreq : clientNewRequest c (mkReq "PUT" (joinUrl c uuid)) = .ok (.ok req))
    (hdo : send req = .resp status body) :
    clientAdd c uuid (.ok ()) mkReq send =
      .ok (if status = 201 then none
           else if status = 409 then some GoError.conflictingUUID
           else some GoError.invalidResponse) := by
  simp [clientAdd, hreq, hdo]
  split_ifs <;> rfl

/-- Witness for C3: a completed round trip with status 201 makes Add
succeed. -/
theorem clientAdd_status_mapping_witness :
    clientAdd (Client.mk "http://h" "" ":53" ".d.") "u" (.ok ())
      (fun _ _ => .ok (HttpRequest.mk "PUT" "x" []))
      (fun _ => .resp 201 (.ok ())) = .ok none := by
  have h := clientAdd_status_mapping (Client.mk "http://h" "" ":53" ".d.") "u"
    (fun _ _ => .ok (HttpRequest.mk "PUT" "x" []))
    (fun _ => .resp 201 (.ok ()))
    (HttpRequest.mk "PUT" "x" []) 201 (.ok ()) rfl rfl
  simpa using h

/-- Claim C4: once the Get round trip completes, status 200 returns the
decoded record when the body decodes, a decode failure propagates as its
own error, 404 maps to ErrServiceNotFound, any other status to
ErrInvalidResponse; and a propagated decode error is distinct from each of
the four sentinel errors. -/
theorem clientGet_status_mapping (c : Client) (uuid : String)
    (mkReq : String → String → Except String HttpRequest)
    (send : HttpRequest → DoOutcome (Option Service)) (req : HttpRequest)
    (hreq : clientNewRequest c (mkReq "GET" (joinUrl c uuid)) = .ok (.ok req)) :
    (∀ status body, send req = .resp status body →
      clientGet c uuid mkReq send =
        .ok (if status = 200 then
               match body with
               | .ok s => .ok s
               | .error e => .error (.other e)
             else if status = 404 then .error .serviceNotFound
             else .error .invalidResponse))
    ∧ (∀ e : String, GoError.other e ≠ .noHttpAddress ∧ GoError.other e ≠ .invalidResponse
        ∧ GoError.other e ≠ .serviceNotFound ∧ GoError.other e ≠ .conflictingUUID) := by
  constructor
  · intro status body hdo
    by_cases h200 : status = 200
    · subst h200
      cases body with
      | error e => simp [clientGet, hreq, hdo]
      | ok s => simp [clientGet, hreq, hdo]
    · by_cases h404 : status = 404
      · simp [clientGet, hreq, hdo, h200, h404]
      · simp [clientGet, hreq, hdo, h200, h404]
  · intro e
    exact ⟨by simp, by simp, by simp, by simp⟩

/-- Witness for C4: status 200 with a body decoding to a concrete record
returns that record. -/
theorem clientGet_status_mapping_witness :
    clientGet (Client.mk "http://h" "" ":53" ".d.") "u"
      (fun _ _ => .ok (HttpRequest.mk "GET" "x" []))
      (fun _ => .resp 200 (.ok (some (Service.mk "s" "h1" 80 60)))) =
      .ok (.ok (some (Service.mk "s" "h1" 80 60))) := by
  have h := (clientGet_status_mapping (Client.mk "http://h" "" ":53" ".d.") "u"
    (fun _ _ => .ok (HttpRequest.mk "GET" "x" []))
    (fun _ => .resp 200 (.ok (some (Service.mk "s" "h1" 80 60))))
    (HttpRequest.mk "GET" "x" []) rfl).1 200
    (.ok (some (Service.mk "s" "h1" 80 60))) rfl
  simpa using h

/-- Claim C5: once their round trips complete, Delete and Update succeed
whatever status code the response carries. -/
theorem clientDelete_update_ignore_status (c : Client) (uuid : String) (ttl : Nat)
    (mkReqD mkReqU : String → String → Except String HttpRequest)
    (sendD sendU : HttpRequest → DoOutcome Unit)
    (reqD reqU : HttpRequest) (statusD statusU : Nat)
    (bodyD bodyU : Except String Unit)
    (hreqD : clientNewRequest c (mkReqD "DELETE" (joinUrl c uuid)) = .ok (.ok reqD))
    (hdoD : sendD reqD = .resp statusD bodyD)
    (hreqU : clientNewRequest c (mkReqU "PATCH" (joinUrl c uuid)) = .ok (.ok reqU))
    (hdoU : sendU reqU = .resp statusU bodyU) :
    clientDelete c uuid mkReqD sendD = .ok none
    ∧ clientUpdate c uuid ttl mkReqU sendU = .ok none := by
  constructor
  · simp [clientDelete, hreqD, hdoD]
  · simp [clientUpdate, hreqU, hdoU]

/-- Witness for C5: responses with status 500 still make Delete and Update
report success. -/
theorem clientDelete_update_ignore_status_witness :
    clientDelete (Client.mk "http://h" "" ":53" ".d.") "u"
      (fun _ _ => .ok (HttpRequest.mk "DELETE" "x" []))
      (fun _ => .resp 500 (.ok ())) = .ok none
    ∧ clientUpdate (Client.mk "http://h" "" ":53" ".d.") "u" 60
      (fun _ _ => .ok (HttpRequest.mk "PATCH" "x" []))
      (fun _ => .resp 500 (.ok ())) = .ok none :=
  clientDelete_update_ignore_status (Client.mk "http://h" "" ":53" ".d.") "u" 60
    (fun _ _ => .ok (HttpRequest.mk "DELETE" "x" []))
    (fun _ _ => .ok (HttpRequest.mk "PATCH" "x" []))
    (fun _ => .resp 500 (.ok ())) (fun _ => .resp 500 (.ok ()))
    (HttpRequest.mk "DELETE" "x" []) (HttpRequest.mk "PATCH" "x" [])
    500 500 (.ok ()) (.ok ()) rfl rfl rfl rfl

/-- Claim C6: once the AddCallback round trip completes, 201 is success,
404 is ErrServiceNotFound, everything else ErrInvalidResponse. -/
theorem clientAddCallback_status_mapping (c : Client) (uuid : String)
    (mkReq : String → String → Except String HttpRequest)
    (send : HttpRequest → DoOutcome Unit) (req : HttpRequest) (status : Nat)
    (body : Except String Unit)
    (hreq : clientNewRequest c (mkReq "PUT" (c.base ++ "/skydns/callbacks/" ++ uuid))
      = .ok (.ok req))
    (hdo : send req = .resp status body) :
    clientAddCallback c uuid (.ok ()) mkReq send =
      .ok (if status = 201 then none
           else if status = 404 then some GoError.serviceNotFound
           else some GoError.invalidResponse) := by
  simp [clientAddCallback, hreq, hdo]
  split_ifs <;> rfl

/-- Witness for C6: a completed round trip with status 404 maps to
ErrServiceNotFound. -/
theorem clientAddCallback_status_mapping_witness :
    clientAddCallback (Client.mk "http://h" "" ":53" ".d.") "u" (.ok ())
      (fun _ _ => .ok (HttpRequest.mk "PUT" "x" []))
      (fun _ => .resp 404 (.ok ())) = .ok (some GoError.serviceNotFound) := by
  have h := clientAddCallback_status_mapping (Client.mk "http://h" "" ":53" ".d.") "u"
    (fun _ _ => .ok (HttpRequest.mk "PUT" "x" []))
    (fun _ => .resp 404 (.ok ()))
    (HttpRequest.mk "PUT" "x" []) 404 (.ok ()) rfl rfl
  simpa using h

/-- Claim C7: whenever the DNS exchange succeeds, GetRegionsDNS returns
the empty mapping and a nil error, since the received response is bound
and then discarded without ever being decoded. -/
theorem clientGetRegionsDNS_returns_empty (c : Client)
    (exch : DnsMsg → String → Except String DnsMsg) (q resp : DnsMsg)
    (hq : newRequestDNS "regions" typeSRV = .ok q)
    (hx : exch q c.basedns = .ok resp) :
    clientGetRegionsDNS c exch = .ok ([] : List (String × Nat)) := by
  simp only [newRequestDNS, Except.ok.injEq] at hq
  subst hq
  simp [clientGetRegionsDNS, newRequestDNS, hx]

/-- Witness for C7: a successful exchange against a concrete handle
returns the empty mapping. -/
theorem clientGetRegionsDNS_returns_empty_witness :
    clientGetRegionsDNS (Client.mk "http://h" "" ":53" ".d.")
      (fun _ _ => .ok (DnsMsg.mk false [])) = .ok ([] : List (String × Nat)) :=
  clientGetRegionsDNS_returns_empty (Client.mk "http://h" "" ":53" ".d.")
    (fun _ _ => .ok (DnsMsg.mk false []))
    (setQuestion (DnsMsg.mk false []) "regions" typeSRV)
    (DnsMsg.mk false []) rfl rfl

/-- Claim C8: when the base is non-empty, long enough for the slice base[6:]
to be defined, and SplitHostPort fails on that slice, NewClient still
returns a handle with a nil error: the parse error is discarded. -/
theorem newClient_parse_failure_succeeds (base secret dnsdomain : String) (dnsport : Nat)
    (h1 : base ≠ "") (h2 : 6 ≤ base.length)
    (_h3 : ∃ e, goSplitHostPort (goSliceFrom base 6) = .error e) :
    ∃ c, newClient base secret dnsdomain dnsport = .ok (.ok c) := by
  refine ⟨{ base := base, secret := secret,
            basedns := goJoinHostPort (deriveHost base)
              (toString (if dnsport = 0 then 53 else dnsport)),
            domain := "." ++ dnsFqdn dnsdomain }, ?_⟩
  have hlt : ¬ base.length < 6 := Nat.not_lt.mpr h2
  simp [newClient, h1, hlt]

/-- Witness for C8 at base "http:/": the slice is the empty string, which
SplitHostPort rejects for lack of a port, yet construction succeeds. -/
theorem newClient_parse_failure_succeeds_witness :
    ("http:/" : String) ≠ ""
    ∧ 6 ≤ ("http:/" : String).length
    ∧ goSplitHostPort (goSliceFrom "http:/" 6) = .error "missing port in address"
    ∧ ∃ c, newClient "http:/" "" "d" 0 = .ok (.ok c) :=
  ⟨by decide, by decide, rfl,
    newClient_parse_failure_succeeds "http:/" "" "d" 0 (by decide) (by decide)
      ⟨"missing port in address", rfl⟩⟩

/-- Counterexample to claim C9: on a handle carrying a shared secret, a
failed request construction does not return the error; the source adds the
Authorization header to the nil request first, so the call panics. -/
theorem clientNewRequest_secret_cex :
    clientNewRequest (Client.mk "http://h" "tok" ":53" ".d.") (.error "parse error")
      = .panics "invalid memory address or nil pointer dereference"
    ∧ clientNewRequest (Client.mk "http://h" "tok" ":53" ".d.") (.error "parse error")
      ≠ .ok (.error "parse error") := by
  constructor
  · rfl
  · simp [clientNewRequest]

/-- Claim C9 as amended: when no secret is configured, the request builder
returns the construction error unchanged; when a secret is configured, a
failed construction dereferences the nil request and panics instead of
returning. -/
theorem clientNewRequest_error_behavior (c : Client) (e : String) :
    (c.secret = "" → clientNewRequest c (.error e) = .ok (.error e))
    ∧ (c.secret ≠ "" → clientNewRequest c (.error e) =
        .panics "invalid memory address or nil pointer dereference") := by
  constructor
  · intro h
    simp [clientNewRequest, h]
  · intro h
    simp [clientNewRequest, h]

/-- Witness for the amended C9: with no secret configured the construction
error comes back unchanged. -/
theorem clientNewRequest_error_behavior_witness :
    clientNewRequest (Client.mk "http://h" "" ":53" ".d.") (.error "boom")
      = .ok (.error "boom") :=
  (clientNewRequest_error_behavior (Client.mk "http://h" "" ":53" ".d.") "boom").1 rfl

/-- Claim C10: a non-empty base shorter than six characters makes the
slice base[6:] exceed the string bounds, so NewClient panics rather than
returning a handle or an error value. -/
theorem newClient_short_base_panics (base secret dnsdomain : String) (dnsport : Nat)
    (h1 : base ≠ "") (h2 : base.length < 6) :
    newClient base secret dnsdomain dnsport = .panics "slice bounds out of range" := by
  simp [newClient, h1, h2]

/-- Witness for C10 at base "abc". -/
theorem newClient_short_base_panics_witness :
    newClient "abc" "" "d" 0 = .panics "slice bounds out of range" :=
  newClient_short_base_panics "abc" "" "d" 0 (by decide) (by decide)

end Skydns
